import Mathlib

/-!
Verification of the Waw-Quran-Companion deployment scripts.

The repository contains two sequential batch scripts:
* `scripts/deployment/generate_context_summaries.py` — the Summary Generator:
  for each verse (ayah) lacking an AI summary it generates an English and an
  Indonesian summary via an external completion API, PATCHes both onto the
  destination store, and tracks progress in a local JSON checkpoint, with a
  retry/backoff loop per record.
* `scripts/deployment/seed_ayat_to_supabase.py` — the Seeder: reads verse rows
  from a local SQLite snapshot and bulk-upserts them to the destination store
  in batches of 100, with a per-record fallback on uniqueness conflicts.

External I/O (the completion API, the destination store's HTTP surface, the
local database, the checkpoint file, the clock) is modelled by explicit
oracles passed as arguments; the control flow, state updates and request
bodies are translated directly from the Python source.  Every externally
visible action is recorded in an explicit call trace so that theorems can
speak about which requests were issued and in which order.
-/

/-! ## Summary Generator: data model (generate_context_summaries.py) -/

/-- A verse row as returned by `get_ayat_with_translations` (SQLite query,
lines 103–129): id, surah_id, ayah_number, text_uthmani, surah name, and the
two left-joined translations (possibly NULL). -/
structure Ayah where
  id : Nat
  surah_id : Nat
  ayah_number : Nat
  text_uthmani : String
  surah_name : String
  translation_en : Option String
  translation_id : Option String
deriving DecidableEq, Repr

/-- One entry of the checkpoint's `errors` list (lines 262–267). -/
structure ErrorEntry where
  ayah_id : Nat
  surah_ayah : String
  error : String
  timestamp : String
deriving DecidableEq, Repr

/-- The progress checkpoint document (`generation_progress.json`,
lines 69–74): `updated_at` is absent until the first save. -/
structure Progress where
  last_completed_id : Nat
  total_generated : Nat
  errors : List ErrorEntry
  started_at : String
  updated_at : Option String
deriving DecidableEq, Repr

/-- `save_progress` (lines 77–81): stamps `updated_at` and writes the whole
document.  The written document is the function's result. -/
def save_progress (progress : Progress) (now : String) : Progress :=
  { progress with updated_at := some now }

/-- `load_progress` (lines 64–74): parse the file if it exists, otherwise the
fresh default document. -/
def load_progress (file : Option Progress) (now : String) : Progress :=
  match file with
  | some p => p
  | none =>
      { last_completed_id := 0, total_generated := 0, errors := [],
        started_at := now, updated_at := none }

/-- The composite surah:ayah label built at line 226. -/
def surah_label (ayah : Ayah) : String :=
  toString ayah.surah_id ++ ":" ++ toString ayah.ayah_number

/-- The JSON body of the PATCH issued by `update_supabase` (lines 207–210),
as an ordered field list. -/
def update_supabase_body (summary_en summary_id : String) : List (String × String) :=
  [("context_summary_en", summary_en), ("context_summary_id", summary_id)]

/-- Rate limiting constant `MIN_DELAY` (line 59). -/
def MIN_DELAY : Nat := 2

/-- Retry constant `MAX_RETRIES` (line 60). -/
def MAX_RETRIES : Nat := 3

/-- Retry constant `BACKOFF_MULTIPLIER` (line 61). -/
def BACKOFF_MULTIPLIER : Nat := 2

/-- Oracle for the external effects of one record's processing.  Each is
indexed by the attempt number, since the outcome of a network call may differ
between attempts: `gen_en`/`gen_id` model `generate_summary(ayah, lang)`
(its `call_openrouter` HTTP call either returns the trimmed completion text
or raises); `patch` models the `urlopen` inside `update_supabase` (returns,
or raises given the attempt and the two summaries being written). -/
structure GenEnv where
  gen_en : Nat → Except String String
  gen_id : Nat → Except String String
  patch : Nat → String → String → Except String Unit

/-- Externally visible actions of the Summary Generator, in program order. -/
inductive Call where
  | storeQuery : Call
  | genEN (attempt : Nat) : Call
  | genID (attempt : Nat) : Call
  | patchReq (ayahId : Nat) (attempt : Nat) (body : List (String × String)) : Call
  | rateSleep (seconds : Nat) : Call
  | backoffSleep (seconds : Nat) : Call
  | saveCkpt (p : Progress) : Call
deriving DecidableEq, Repr

/-- The `try:` block of one attempt of `process_ayah` (lines 229–245): EN
generation, the `time.sleep(MIN_DELAY)` rate-limit pause, ID generation, then
the Supabase PATCH.  Returns the calls actually performed together with
either the two summaries or the first exception raised. -/
def attempt_unit (env : GenEnv) (ayah : Ayah) (attempt : Nat) :
    List Call × Except String (String × String) :=
  match env.gen_en attempt with
  | Except.error e => ([Call.genEN attempt], Except.error e)
  | Except.ok summary_en =>
    match env.gen_id attempt with
    | Except.error e =>
        ([Call.genEN attempt, Call.rateSleep MIN_DELAY, Call.genID attempt],
         Except.error e)
    | Except.ok summary_id =>
      match env.patch attempt summary_en summary_id with
      | Except.error e =>
          ([Call.genEN attempt, Call.rateSleep MIN_DELAY, Call.genID attempt,
            Call.patchReq ayah.id attempt (update_supabase_body summary_en summary_id)],
           Except.error e)
      | Except.ok _ =>
          ([Call.genEN attempt, Call.rateSleep MIN_DELAY, Call.genID attempt,
            Call.patchReq ayah.id attempt (update_supabase_body summary_en summary_id)],
           Except.ok (summary_en, summary_id))

/-- The successful-record checkpoint update (lines 247–250). -/
def succ_progress (ayah : Ayah) (progress : Progress) (now : String) : Progress :=
  save_progress
    { progress with last_completed_id := ayah.id,
                    total_generated := progress.total_generated + 1 } now

/-- The exhausted-retries checkpoint update (lines 262–268). -/
def fail_progress (ayah : Ayah) (e : String) (progress : Progress) (now : String) : Progress :=
  save_progress
    { progress with errors := progress.errors ++
        [{ ayah_id := ayah.id, surah_ayah := surah_label ayah,
           error := e, timestamp := now }] } now

/-- The `for attempt in range(MAX_RETRIES)` loop of `process_ayah`
(lines 228–271), over the list of remaining attempt indices.  On success the
checkpoint is advanced and saved; on an exception the loop sleeps
`MIN_DELAY * BACKOFF_MULTIPLIER ** attempt` and retries the whole unit if
`attempt < MAX_RETRIES - 1`, else records a failure entry and saves. -/
def process_ayah_loop (env : GenEnv) (ayah : Ayah) (now : String) :
    List Nat → Progress → Bool × Progress × List Call
  | [], progress => (false, progress, [])
  | attempt :: restAttempts, progress =>
    match (attempt_unit env ayah attempt).2 with
    | Except.ok _ =>
        (true, succ_progress ayah progress now,
         (attempt_unit env ayah attempt).1 ++
           [Call.saveCkpt (succ_progress ayah progress now)])
    | Except.error e =>
        if attempt < MAX_RETRIES - 1 then
          let r := process_ayah_loop env ayah now restAttempts progress
          (r.1, r.2.1,
           (attempt_unit env ayah attempt).1 ++
             Call.backoffSleep (MIN_DELAY * BACKOFF_MULTIPLIER ^ attempt) :: r.2.2)
        else
          (false, fail_progress ayah e progress now,
           (attempt_unit env ayah attempt).1 ++
             [Call.saveCkpt (fail_progress ayah e progress now)])

/-- `process_ayah` (lines 223–271). -/
def process_ayah (env : GenEnv) (ayah : Ayah) (now : String) (progress : Progress) :
    Bool × Progress × List Call :=
  process_ayah_loop env ayah now (List.range MAX_RETRIES) progress

/-- The per-record loop of `main` (lines 315–330): process each remaining
ayah in order, threading the checkpoint through, with the inter-record
`time.sleep(MIN_DELAY)`.  Returns the final checkpoint, the per-record
(id, success) outcomes in processing order, and the full call trace. -/
def run_loop (env : Ayah → GenEnv) (now : String) :
    List Ayah → Progress → Progress × List (Nat × Bool) × List Call
  | [], progress => (progress, [], [])
  | ayah :: rest, progress =>
    let r := process_ayah (env ayah) ayah now progress
    let t := run_loop env now rest r.2.1
    (t.1, (ayah.id, r.1) :: t.2.1,
     r.2.2 ++ Call.rateSleep MIN_DELAY :: t.2.2)

/-- The checkpoint documents written during a trace, in order. -/
def saves (calls : List Call) : List Progress :=
  calls.filterMap (fun c =>
    match c with
    | Call.saveCkpt p => some p
    | _ => none)

/-- The PATCH requests of a trace: target id with the JSON body sent. -/
def patchBodies (calls : List Call) : List (Nat × List (String × String)) :=
  calls.filterMap (fun c =>
    match c with
    | Call.patchReq i _ b => some (i, b)
    | _ => none)

/-- Recognizer for English-generation calls (the first step of an attempt),
used to count attempts. -/
def isGenEN (c : Call) : Bool :=
  match c with
  | Call.genEN _ => true
  | _ => false

/-- `get_ayat_without_summaries` (lines 84–100): the Supabase GET either
yields the id list, or any exception is caught and `None` is returned. -/
def get_ayat_without_summaries (q : Except String (List Nat)) : Option (List Nat) :=
  match q with
  | Except.ok ids => some ids
  | Except.error _ => none

/-- The work-set filter of `main` (lines 295–304): with a store answer,
keep the ayat whose id is in `missing_ids`; on fallback, keep the ayat whose
id exceeds the checkpoint's `last_completed_id`. -/
def select_remaining (missing_ids : Option (List Nat)) (progress : Progress)
    (ayat_list : List Ayah) : List Ayah :=
  match missing_ids with
  | some ids => ayat_list.filter (fun a => ids.contains a.id)
  | none => ayat_list.filter (fun a => decide (progress.last_completed_id < a.id))

/-- The environment variables read at module load by both scripts
(generator lines 33–35, seeder lines 22–23); `none` models an absent
variable. -/
structure Config where
  openrouter_api_key : Option String
  supabase_url : Option String
  supabase_service_role : Option String
deriving DecidableEq, Repr

/-- The generator's module-level check (line 37):
`all([OPENROUTER_API_KEY, SUPABASE_URL, SUPABASE_SERVICE_ROLE])`. -/
def generator_env_ok (c : Config) : Bool :=
  c.openrouter_api_key.isSome && c.supabase_url.isSome && c.supabase_service_role.isSome

/-- The Summary Generator process (module check, lines 37–42, plus `main`,
lines 274–330): on missing environment it exits before any call; otherwise
it loads the checkpoint, issues the store query (caught on failure), then
reads SQLite — a missing database file (`db = none`) makes the `ayat` table
query raise an uncaught `sqlite3.OperationalError` — and finally filters the
work-set and runs the per-record loop. -/
def generator_main (c : Config) (q : Except String (List Nat)) (db : Option (List Ayah))
    (env : Ayah → GenEnv) (now : String) (file : Option Progress) :
    List Call × Except String Progress :=
  if generator_env_ok c then
    match db with
    | none => ([Call.storeQuery], Except.error "no such table: ayat")
    | some ayat_list =>
      let progress := load_progress file now
      let remaining := select_remaining (get_ayat_without_summaries q) progress ayat_list
      let r := run_loop env now remaining progress
      (Call.storeQuery :: r.2.2, Except.ok r.1)
  else ([], Except.error "ERROR: Required environment variables not set")

/-! ## Seeder: data model (seed_ayat_to_supabase.py) -/

/-- A row of the seeder's SQLite query (lines 44–59). -/
structure SeedRow where
  id : Nat
  surah_id : Nat
  ayah_number : Nat
  text_uthmani : String
  text_simple : String
  juz_number : Nat
  page_number : Nat
  translation_en : Option String
  translation_id : Option String
deriving DecidableEq, Repr

/-- A record as prepared for upload (lines 82–93): the summary fields are
deliberately omitted, to be added later by the generator. -/
structure SeedRec where
  id : Nat
  surah_id : Nat
  ayah_number : Nat
  text_uthmani : String
  text_simple : String
  juz_number : Nat
  page_number : Nat
deriving DecidableEq, Repr

/-- The record-preparation mapping of lines 84–93. -/
def to_record (r : SeedRow) : SeedRec :=
  { id := r.id, surah_id := r.surah_id, ayah_number := r.ayah_number,
    text_uthmani := r.text_uthmani, text_simple := r.text_simple,
    juz_number := r.juz_number, page_number := r.page_number }

/-- Number of iterations of `range(0, total, batch_size)` (line 99). -/
def num_batches (total batch_size : Nat) : Nat :=
  (total + batch_size - 1) / batch_size

/-- The batch partition of line 100: `records[i:i + batch_size]` for
`i = 0, 100, 200, …`. -/
def batches (records : List SeedRec) : List (List SeedRec) :=
  (List.range (num_batches records.length 100)).map
    (fun i => (records.drop (i * 100)).take 100)

/-- Outcome of one `urlopen` POST: a response with its status code, an
`HTTPError` with its code and body, or any other exception. -/
inductive PostOutcome where
  | success (status : Nat) : PostOutcome
  | httpError (code : Nat) (body : String) : PostOutcome
  | exn (msg : String) : PostOutcome
deriving DecidableEq, Repr

/-- Oracle for the seeder's POSTs to `/rest/v1/ayat`: the outcome as a
function of the JSON payload (a batch, or a one-record list). -/
structure SeedEnv where
  post : List SeedRec → PostOutcome

/-- Requests issued by the Seeder, in program order. -/
inductive SeedReq where
  | batchPost (payload : List SeedRec) : SeedReq
  | singlePost (r : SeedRec) : SeedReq
  | countQuery : SeedReq
deriving DecidableEq, Repr

/-- The per-record fallback loop (lines 122–130): each record is POSTed as a
one-element array; an `HTTPError` (or a response) is ignored, but any other
exception is not caught by the inner handler and propagates, aborting the
whole upload (the surrounding `except` clauses guard the `try` body, not
this handler). -/
def singles_run (env : SeedEnv) : List SeedRec → List SeedReq × Option String
  | [] => ([], none)
  | r :: rest =>
    match env.post [r] with
    | PostOutcome.exn m => ([SeedReq.singlePost r], some m)
    | _ =>
      let t := singles_run env rest
      (SeedReq.singlePost r :: t.1, t.2)

/-- Handling of one batch (lines 106–132): POST the batch; a response of any
status is accepted, an `HTTPError` triggers the per-record fallback exactly
when its code is 409, and any other exception is caught by the
`except Exception` clause and reported.  The `Option String` is an exception
escaping the handler (only possible from the fallback loop). -/
def handle_batch (env : SeedEnv) (batch : List SeedRec) : List SeedReq × Option String :=
  match env.post batch with
  | PostOutcome.success _ => ([SeedReq.batchPost batch], none)
  | PostOutcome.exn _ => ([SeedReq.batchPost batch], none)
  | PostOutcome.httpError code _ =>
    if code == 409 then
      let t := singles_run env batch
      (SeedReq.batchPost batch :: t.1, t.2)
    else ([SeedReq.batchPost batch], none)

/-- The batch loop of `upload_to_supabase` (lines 99–132): batches are
handled in order; an exception escaping a batch's handler aborts the loop. -/
def upload_run (env : SeedEnv) : List (List SeedRec) → List SeedReq × Option String
  | [] => ([], none)
  | b :: bs =>
    let h := handle_batch env b
    match h.2 with
    | some m => (h.1, some m)
    | none =>
      let t := upload_run env bs
      (h.1 ++ t.1, t.2)

/-- `upload_to_supabase` (lines 68–132) after record preparation. -/
def upload_to_supabase (env : SeedEnv) (records : List SeedRec) :
    List SeedReq × Option String :=
  upload_run env (batches records)

/-- The seeder's module-level check (line 25):
`if not SUPABASE_URL or not SUPABASE_SERVICE_ROLE`. -/
def seeder_env_ok (c : Config) : Bool :=
  c.supabase_url.isSome && c.supabase_service_role.isSome

/-- The Seeder process (module check, lines 25–27, plus `main`,
lines 161–197): on missing environment it exits before any request; `main`
checks that the SQLite file exists (`db = none` models a missing file) and
exits before any request otherwise; then it reads the rows, uploads, and —
only if the upload returned normally — issues the verification count
query. -/
def seeder_main (c : Config) (env : SeedEnv) (db : Option (List SeedRow)) :
    List SeedReq × Except String Unit :=
  if seeder_env_ok c then
    match db with
    | none => ([], Except.error "ERROR: SQLite database not found")
    | some rows =>
      let u := upload_to_supabase env (rows.map to_record)
      match u.2 with
      | some m => (u.1, Except.error m)
      | none => (u.1 ++ [SeedReq.countQuery], Except.ok ())
  else
    ([], Except.error "ERROR: SUPABASE_URL and SUPABASE_SERVICE_ROLE must be set in .env")

/-! ## Concrete instances used in example runs -/

/-- The spec's example verse: id 5, surah Al-Baqarah (2), ayah 255, with an
English translation. -/
def ayah5 : Ayah :=
  { id := 5, surah_id := 2, ayah_number := 255,
    text_uthmani := "ALLAHU LA ILAHA ILLA HUWA",
    surah_name := "Al-Baqarah",
    translation_en := some "Allah - there is no deity except Him",
    translation_id := some "Allah, tidak ada tuhan selain Dia" }

/-- A mocked completion API returning the fixed text "T" for both language
calls, with a succeeding store PATCH. -/
def envT : GenEnv :=
  { gen_en := fun _ => Except.ok "T",
    gen_id := fun _ => Except.ok "T",
    patch := fun _ _ _ => Except.ok () }

/-- A completion API whose English call always raises. -/
def envFail : GenEnv :=
  { gen_en := fun _ => Except.error "boom",
    gen_id := fun _ => Except.ok "x",
    patch := fun _ _ _ => Except.ok () }

/-- Per-ayah oracle that always fails (for every record). -/
def envFailA : Ayah → GenEnv := fun _ => envFail

/-- Per-ayah oracle that always succeeds with "T". -/
def envOkA : Ayah → GenEnv := fun _ => envT

/-- A small concrete verse used in witnesses. -/
def aW : Ayah :=
  { id := 7, surah_id := 1, ayah_number := 2, text_uthmani := "TXT",
    surah_name := "Al-Fatihah", translation_en := some "tr-en",
    translation_id := some "tr-id" }

/-- A fresh checkpoint. -/
def pW : Progress :=
  { last_completed_id := 0, total_generated := 0, errors := [],
    started_at := "s", updated_at := none }

/-- A verse with id 3 (fails in the mixed run below). -/
def a3 : Ayah :=
  { id := 3, surah_id := 1, ayah_number := 3, text_uthmani := "T3",
    surah_name := "Al-Fatihah", translation_en := some "e3",
    translation_id := some "i3" }

/-- A verse with id 4 (succeeds in the mixed run below). -/
def a4 : Ayah :=
  { id := 4, surah_id := 1, ayah_number := 4, text_uthmani := "T4",
    surah_name := "Al-Fatihah", translation_en := some "e4",
    translation_id := some "i4" }

/-- A checkpoint whose high-water mark (10) exceeds the ids the store still
reports as missing. -/
def p10 : Progress :=
  { last_completed_id := 10, total_generated := 0, errors := [],
    started_at := "s", updated_at := none }

/-- Oracle where ayah 3 always fails and every other ayah succeeds. -/
def envMix : Ayah → GenEnv := fun a => if a.id == 3 then envFail else envT

/-- A configuration with all three variables present. -/
def cAll : Config :=
  { openrouter_api_key := some "k", supabase_url := some "u",
    supabase_service_role := some "r" }

/-- A configuration missing the service-role credential. -/
def cNoRole : Config :=
  { openrouter_api_key := some "k", supabase_url := some "u",
    supabase_service_role := none }

/-- A concrete seed record. -/
def r0 : SeedRec :=
  { id := 1, surah_id := 1, ayah_number := 1, text_uthmani := "B",
    text_simple := "b", juz_number := 1, page_number := 1 }

/-- A second concrete seed record. -/
def r1 : SeedRec :=
  { id := 2, surah_id := 1, ayah_number := 2, text_uthmani := "C",
    text_simple := "c", juz_number := 1, page_number := 1 }

/-- 101 identical records: enough for two batches. -/
def recsC : List SeedRec := List.replicate 101 r0

/-- A store that answers 409 to any 100-record batch and raises a transport
exception on any other payload (in particular on every one-record
fallback POST). -/
def envC : SeedEnv :=
  { post := fun payload =>
      if payload.length == 100 then PostOutcome.httpError 409 "conflict"
      else PostOutcome.exn "connection reset by peer" }

/-- A store that answers 409 to every POST. -/
def env409 : SeedEnv :=
  { post := fun _ => PostOutcome.httpError 409 "duplicate key" }

/-- A store that accepts every POST. -/
def envOkSeed : SeedEnv :=
  { post := fun _ => PostOutcome.success 201 }

/-- A completion API that always succeeds whose PATCH raises on the first
attempt and returns on the second. -/
def envPF : GenEnv :=
  { gen_en := fun _ => Except.ok "E",
    gen_id := fun _ => Except.ok "I",
    patch := fun k _ _ => if k == 0 then Except.error "HTTP 500" else Except.ok () }

/-! ## Helper lemmas -/

lemma range_max_retries : List.range MAX_RETRIES = [0, 1, 2] := by decide

/-- An attempt's call list contains exactly one English-generation call. -/
lemma attempt_unit_genEN_count (env : GenEnv) (ayah : Ayah) (k : Nat) :
    List.countP isGenEN (attempt_unit env ayah k).1 = 1 := by
  cases hen : env.gen_en k with
  | error e => simp [attempt_unit, hen, isGenEN]
  | ok sen =>
    cases hid : env.gen_id k with
    | error e => simp [attempt_unit, hen, hid, isGenEN]
    | ok sid =>
      cases hp : env.patch k sen sid with
      | error e => simp [attempt_unit, hen, hid, hp, isGenEN]
      | ok u => simp [attempt_unit, hen, hid, hp, isGenEN]

/-- An attempt's call list contains no checkpoint save. -/
lemma attempt_unit_saves (env : GenEnv) (ayah : Ayah) (k : Nat) :
    saves (attempt_unit env ayah k).1 = [] := by
  cases hen : env.gen_en k with
  | error e => simp [attempt_unit, hen, saves]
  | ok sen =>
    cases hid : env.gen_id k with
    | error e => simp [attempt_unit, hen, hid, saves]
    | ok sid =>
      cases hp : env.patch k sen sid with
      | error e => simp [attempt_unit, hen, hid, hp, saves]
      | ok u => simp [attempt_unit, hen, hid, hp, saves]

lemma saves_append (l1 l2 : List Call) : saves (l1 ++ l2) = saves l1 ++ saves l2 :=
  List.filterMap_append l1 l2 _

lemma saves_nil : saves [] = [] := rfl

lemma saves_cons_save (p : Progress) (l : List Call) :
    saves (Call.saveCkpt p :: l) = p :: saves l := rfl

lemma saves_cons_backoff (n : Nat) (l : List Call) :
    saves (Call.backoffSleep n :: l) = saves l := rfl

lemma saves_cons_rate (n : Nat) (l : List Call) :
    saves (Call.rateSleep n :: l) = saves l := rfl

/-- Full behaviour of `process_ayah` when every attempt raises: three whole
attempts, the two backoff pauses, one failure entry recording the last
attempt's error, one checkpoint save. -/
lemma process_ayah_allFail (env : GenEnv) (ayah : Ayah) (now : String)
    (progress : Progress) (emsg : Nat → String)
    (h : ∀ k, k < MAX_RETRIES → (attempt_unit env ayah k).2 = Except.error (emsg k)) :
    process_ayah env ayah now progress =
      (false, fail_progress ayah (emsg 2) progress now,
       (attempt_unit env ayah 0).1 ++
         Call.backoffSleep (MIN_DELAY * BACKOFF_MULTIPLIER ^ 0) ::
         ((attempt_unit env ayah 1).1 ++
           Call.backoffSleep (MIN_DELAY * BACKOFF_MULTIPLIER ^ 1) ::
           ((attempt_unit env ayah 2).1 ++
             [Call.saveCkpt (fail_progress ayah (emsg 2) progress now)]))) := by
  have h0 := h 0 (by decide)
  have h1 := h 1 (by decide)
  have h2 := h 2 (by decide)
  unfold process_ayah
  rw [range_max_retries]
  unfold process_ayah_loop
  rw [h0]
  simp only [show ((0 : Nat) < MAX_RETRIES - 1) = True from by decide, if_true]
  unfold process_ayah_loop
  rw [h1]
  simp only [show ((1 : Nat) < MAX_RETRIES - 1) = True from by decide, if_true]
  unfold process_ayah_loop
  rw [h2]
  simp only [show ((2 : Nat) < MAX_RETRIES - 1) = False from by decide, if_false]

/-- At most as many attempts are made as there are indices left. -/
lemma process_ayah_loop_genEN_le (env : GenEnv) (ayah : Ayah) (now : String)
    (attempts : List Nat) :
    ∀ progress, List.countP isGenEN
      (process_ayah_loop env ayah now attempts progress).2.2 ≤ attempts.length := by
  induction attempts with
  | nil => intro progress; simp [process_ayah_loop]
  | cons attempt rest ih =>
    intro progress
    cases hu : (attempt_unit env ayah attempt).2 with
    | ok v =>
      simp [process_ayah_loop, hu, List.countP_append, List.countP_cons,
            attempt_unit_genEN_count, isGenEN]
    | error e =>
      by_cases hlt : attempt < MAX_RETRIES - 1
      · have h := ih progress
        simp only [process_ayah_loop, hu, hlt, if_true, List.countP_append,
                   List.length_cons,
                   List.countP_cons_of_neg _ _ (show ¬isGenEN (Call.backoffSleep
                     (MIN_DELAY * BACKOFF_MULTIPLIER ^ attempt)) = true from by
                       simp [isGenEN]),
                   attempt_unit_genEN_count]
        omega
      · simp [process_ayah_loop, hu, hlt, List.countP_append, List.countP_cons,
              attempt_unit_genEN_count, isGenEN]

/-- Last attempt: exactly one checkpoint save, either advancing the
high-water mark to this ayah or leaving it unchanged. -/
lemma process_loop2_save (env : GenEnv) (ayah : Ayah) (now : String) (progress : Progress) :
    saves (process_ayah_loop env ayah now [2] progress).2.2 =
      [(process_ayah_loop env ayah now [2] progress).2.1] ∧
    ((process_ayah_loop env ayah now [2] progress).2.1.last_completed_id = ayah.id ∨
     (process_ayah_loop env ayah now [2] progress).2.1.last_completed_id =
       progress.last_completed_id) := by
  cases hu : (attempt_unit env ayah 2).2 with
  | ok v =>
    simp [process_ayah_loop, hu, saves_append, attempt_unit_saves,
          saves_cons_save, saves_nil, succ_progress, save_progress]
  | error e =>
    simp [process_ayah_loop, hu, show ¬((2 : Nat) < MAX_RETRIES - 1) from by decide,
          saves_append, attempt_unit_saves, saves_cons_save, saves_nil,
          fail_progress, save_progress]

/-- Attempts [1,2]: exactly one checkpoint save, advancing or preserving
the high-water mark. -/
lemma process_loop12_save (env : GenEnv) (ayah : Ayah) (now : String) (progress : Progress) :
    saves (process_ayah_loop env ayah now [1, 2] progress).2.2 =
      [(process_ayah_loop env ayah now [1, 2] progress).2.1] ∧
    ((process_ayah_loop env ayah now [1, 2] progress).2.1.last_completed_id = ayah.id ∨
     (process_ayah_loop env ayah now [1, 2] progress).2.1.last_completed_id =
       progress.last_completed_id) := by
  cases hu : (attempt_unit env ayah 1).2 with
  | ok v =>
    simp [process_ayah_loop, hu, saves_append, attempt_unit_saves,
          saves_cons_save, saves_nil, succ_progress, save_progress]
  | error e =>
    have h2 := process_loop2_save env ayah now progress
    simp only [process_ayah_loop, hu, show ((1 : Nat) < MAX_RETRIES - 1) from by decide,
               if_true, saves_append, attempt_unit_saves, saves_cons_backoff,
               List.nil_append] at h2 ⊢
    exact h2

/-- `process_ayah` writes exactly one checkpoint, whose high-water mark is
either this ayah's id or the previous mark. -/
lemma process_ayah_save (env : GenEnv) (ayah : Ayah) (now : String) (progress : Progress) :
    saves (process_ayah env ayah now progress).2.2 =
      [(process_ayah env ayah now progress).2.1] ∧
    ((process_ayah env ayah now progress).2.1.last_completed_id = ayah.id ∨
     (process_ayah env ayah now progress).2.1.last_completed_id =
       progress.last_completed_id) := by
  unfold process_ayah
  rw [range_max_retries]
  cases hu : (attempt_unit env ayah 0).2 with
  | ok v =>
    simp [process_ayah_loop, hu, saves_append, attempt_unit_saves,
          saves_cons_save, saves_nil, succ_progress, save_progress]
  | error e =>
    have h2 := process_loop12_save env ayah now progress
    simp only [process_ayah_loop, hu, show ((0 : Nat) < MAX_RETRIES - 1) from by decide,
               if_true, saves_append, attempt_unit_saves, saves_cons_backoff,
               List.nil_append] at h2 ⊢
    exact h2

/-- The loop processes exactly the given records, in order. -/
lemma run_loop_ids (env : Ayah → GenEnv) (now : String) :
    ∀ (l : List Ayah) (p : Progress),
      (run_loop env now l p).2.1.map Prod.fst = l.map Ayah.id := by
  intro l
  induction l with
  | nil => intro p; simp [run_loop]
  | cons a rest ih => intro p; simp [run_loop, ih]

/-- If the work list is sorted by id and the initial high-water mark does not
exceed any listed id, the high-water marks of the successive checkpoint
writes form a non-decreasing sequence (starting from the initial mark). -/
lemma run_loop_chain (env : Ayah → GenEnv) (now : String) (l : List Ayah) :
    ∀ (p : Progress),
      List.Pairwise (fun x y => x.id ≤ y.id) l →
      (∀ x ∈ l, p.last_completed_id ≤ x.id) →
      List.Chain' (· ≤ ·)
        (p.last_completed_id ::
          (saves (run_loop env now l p).2.2).map Progress.last_completed_id) := by
  induction l with
  | nil => intro p _ _; simp [run_loop, saves_nil]
  | cons a rest ih =>
    intro p hsort hle
    have hps := process_ayah_save (env a) a now p
    simp only [run_loop, saves_append, saves_cons_rate, hps.1, List.map_append,
               List.map_cons, List.map_nil, List.singleton_append]
    have hle_a : p.last_completed_id ≤ a.id := hle a (List.mem_cons_self a rest)
    have ha_le : ∀ x ∈ rest, a.id ≤ x.id := (List.pairwise_cons.mp hsort).1
    have hrest_sorted := (List.pairwise_cons.mp hsort).2
    have hle' : ∀ x ∈ rest,
        (process_ayah (env a) a now p).2.1.last_completed_id ≤ x.id := by
      intro x hx
      rcases hps.2 with h | h
      · rw [h]; exact ha_le x hx
      · rw [h]; exact hle x (List.mem_cons_of_mem a hx)
    have h1 : p.last_completed_id ≤
        (process_ayah (env a) a now p).2.1.last_completed_id := by
      rcases hps.2 with h | h
      · rw [h]; exact hle_a
      · rw [h]
    have h2 := ih (process_ayah (env a) a now p).2.1 hrest_sorted hle'
    rw [List.chain'_cons]
    exact ⟨h1, h2⟩

/-- Concatenating consecutive `take bs` slices starting at multiples of `bs`
recovers the list, as soon as enough slices are taken. -/
lemma join_slices {α : Type} (bs : Nat) :
    ∀ (n : Nat) (l : List α), l.length ≤ bs * n →
      ((List.range n).map (fun i => (l.drop (i * bs)).take bs)).flatten = l := by
  intro n
  induction n with
  | zero =>
    intro l hl
    have hl0 : l.length = 0 := by simpa using hl
    have : l = [] := List.eq_nil_of_length_eq_zero hl0
    simp [this]
  | succ n ih =>
    intro l hl
    have hl2 : l.length ≤ bs * n + bs := by
      rw [Nat.mul_succ] at hl
      exact hl
    rw [List.range_succ_eq_map]
    simp only [List.map_cons, List.map_map, List.flatten_cons, Nat.zero_mul,
               List.drop_zero]
    have hcomp : ((fun i => (l.drop (i * bs)).take bs) ∘ Nat.succ) =
        (fun i => ((l.drop bs).drop (i * bs)).take bs) := by
      funext i
      simp only [Function.comp_apply, List.drop_drop, Nat.succ_mul, Nat.add_comm]
    rw [hcomp, ih (l.drop bs) (by simp only [List.length_drop]; omega)]
    exact List.take_append_drop bs l

/-- If no one-record POST raises a non-HTTP exception, the fallback loop
submits every record of the batch individually and swallows all errors. -/
lemma singles_run_no_exn (env : SeedEnv) :
    ∀ (l : List SeedRec), (∀ r ∈ l, ∀ m, env.post [r] ≠ PostOutcome.exn m) →
      singles_run env l = (l.map SeedReq.singlePost, none) := by
  intro l
  induction l with
  | nil => intro _; rfl
  | cons r rest ih =>
    intro h
    have hrest := ih (fun x hx m => h x (List.mem_cons_of_mem r hx) m)
    cases hp : env.post [r] with
    | exn m => exact absurd hp (h r (List.mem_cons_self r rest) m)
    | success s => simp [singles_run, hp, hrest]
    | httpError c b => simp [singles_run, hp, hrest]

/-- Under the same proviso, handling one batch never lets an exception
escape, and the batch POST itself is always issued. -/
lemma handle_batch_no_exn (env : SeedEnv) (b : List SeedRec)
    (h : ∀ r ∈ b, ∀ m, env.post [r] ≠ PostOutcome.exn m) :
    (handle_batch env b).2 = none ∧ SeedReq.batchPost b ∈ (handle_batch env b).1 := by
  cases hp : env.post b with
  | success s => simp [handle_batch, hp]
  | exn m => simp [handle_batch, hp]
  | httpError c body =>
    cases hc : c == 409 with
    | true => simp [handle_batch, hp, hc, singles_run_no_exn env b h]
    | false => simp [handle_batch, hp, hc]

/-- Under the same proviso for every batch, the upload loop reaches every
batch and returns normally. -/
lemma upload_run_no_exn (env : SeedEnv) :
    ∀ (bl : List (List SeedRec)),
      (∀ b ∈ bl, ∀ r ∈ b, ∀ m, env.post [r] ≠ PostOutcome.exn m) →
      (upload_run env bl).2 = none ∧
      ∀ b ∈ bl, SeedReq.batchPost b ∈ (upload_run env bl).1 := by
  intro bl
  induction bl with
  | nil => intro _; exact ⟨rfl, by simp⟩
  | cons b rest ih =>
    intro h
    have hb := handle_batch_no_exn env b (h b (List.mem_cons_self b rest))
    have hr := ih (fun x hx r hrx m => h x (List.mem_cons_of_mem b hx) r hrx m)
    constructor
    · simp [upload_run, hb.1, hr.1]
    · intro x hx
      rcases List.mem_cons.mp hx with hxb | hx'
      · subst hxb
        simp only [upload_run, hb.1]
        exact List.mem_append_left _ hb.2
      · simp only [upload_run, hb.1]
        exact List.mem_append_right _ (hr.2 x hx')

/-! ## Claims -/

/-- C1: Running the Summary Generator on the verse record with id 5
(Al-Baqarah 2:255, English translation present) with a completion API that
returns the fixed text "T" for both language calls succeeds, sends exactly
one PATCH whose body is
`{"context_summary_en": "T", "context_summary_id": "T"}` targeted at id 5,
and afterwards the checkpoint's `last_completed_id` equals 5 and
`total_generated` has been incremented by one. -/
theorem claim_C1 (progress : Progress) (now : String) :
    (process_ayah envT ayah5 now progress).1 = true ∧
    patchBodies (process_ayah envT ayah5 now progress).2.2 =
      [(5, [("context_summary_en", "T"), ("context_summary_id", "T")])] ∧
    (process_ayah envT ayah5 now progress).2.1.last_completed_id = 5 ∧
    (process_ayah envT ayah5 now progress).2.1.total_generated =
      progress.total_generated + 1 :=
  ⟨rfl, rfl, rfl, rfl⟩

/-- C2: For a record all of whose attempts raise, processing ends in failure
with exactly one entry appended to the checkpoint's errors list — carrying
the record's id, its composite surah:ayah label, the last error message and
the timestamp — the record is attempted exactly MAX_RETRIES times and never
again, and the run's loop continues with the remaining records. -/
theorem claim_C2 (env : Ayah → GenEnv) (ayah : Ayah) (rest : List Ayah)
    (progress : Progress) (now : String) (emsg : Nat → String)
    (hfail : ∀ k, k < MAX_RETRIES →
      (attempt_unit (env ayah) ayah k).2 = Except.error (emsg k)) :
    (process_ayah (env ayah) ayah now progress).1 = false ∧
    (process_ayah (env ayah) ayah now progress).2.1.errors =
      progress.errors ++
        [{ ayah_id := ayah.id, surah_ayah := surah_label ayah,
           error := emsg 2, timestamp := now }] ∧
    List.countP isGenEN (process_ayah (env ayah) ayah now progress).2.2 =
      MAX_RETRIES ∧
    (run_loop env now (ayah :: rest) progress).2.1 =
      (ayah.id, false) ::
        (run_loop env now rest
          (process_ayah (env ayah) ayah now progress).2.1).2.1 := by
  have hall := process_ayah_allFail (env ayah) ayah now progress emsg hfail
  refine ⟨by rw [hall], ?_, ?_, ?_⟩
  · rw [hall]
    simp [fail_progress, save_progress]
  · rw [hall]
    simp only [List.countP_append,
      List.countP_cons_of_neg _ _ (show ¬isGenEN (Call.backoffSleep
        (MIN_DELAY * BACKOFF_MULTIPLIER ^ 0)) = true from by simp [isGenEN]),
      List.countP_cons_of_neg _ _ (show ¬isGenEN (Call.backoffSleep
        (MIN_DELAY * BACKOFF_MULTIPLIER ^ 1)) = true from by simp [isGenEN]),
      List.countP_cons_of_neg _ _ (show ¬isGenEN (Call.saveCkpt
        (fail_progress ayah (emsg 2) progress now)) = true from by simp [isGenEN]),
      List.countP_nil, attempt_unit_genEN_count]
    decide
  · simp [run_loop, hall]

/-- C2 witness: a concrete record whose English generation always raises
"boom" fails with exactly one recorded error entry. -/
theorem claim_C2_witness :
    (process_ayah (envFailA aW) aW "t" pW).1 = false ∧
    (process_ayah (envFailA aW) aW "t" pW).2.1.errors =
      pW.errors ++
        [{ ayah_id := aW.id, surah_ayah := surah_label aW,
           error := "boom", timestamp := "t" }] := by
  have h := claim_C2 envFailA aW [] pW "t" (fun _ => "boom") (fun k _ => rfl)
  exact ⟨h.1, h.2.1⟩

/-- C3: Any exception during a record's generations or persist retries the
entire record unit, never a sub-step in isolation: at most MAX_RETRIES = 3
whole attempts are made for any oracle; when every attempt fails, the trace
is the three whole attempt units separated by backoff pauses of
`MIN_DELAY * BACKOFF_MULTIPLIER ^ k` seconds (2 s after attempt 1, 4 s after
attempt 2); and when only the persist of attempt 1 fails, attempt 2
re-executes both generations and the persist from the start. -/
theorem claim_C3 :
    MAX_RETRIES = 3 ∧ MIN_DELAY = 2 ∧ BACKOFF_MULTIPLIER = 2 ∧
    (∀ (env : GenEnv) (ayah : Ayah) (now : String) (progress : Progress),
      List.countP isGenEN (process_ayah env ayah now progress).2.2 ≤ MAX_RETRIES) ∧
    (∀ (env : GenEnv) (ayah : Ayah) (now : String) (progress : Progress)
       (emsg : Nat → String),
      (∀ k, k < MAX_RETRIES → (attempt_unit env ayah k).2 = Except.error (emsg k)) →
      (process_ayah env ayah now progress).2.2 =
        (attempt_unit env ayah 0).1 ++
          Call.backoffSleep (MIN_DELAY * BACKOFF_MULTIPLIER ^ 0) ::
          ((attempt_unit env ayah 1).1 ++
            Call.backoffSleep (MIN_DELAY * BACKOFF_MULTIPLIER ^ 1) ::
            ((attempt_unit env ayah 2).1 ++
              [Call.saveCkpt (fail_progress ayah (emsg 2) progress now)]))) ∧
    (∀ (env : GenEnv) (ayah : Ayah) (now : String) (progress : Progress)
       (s1 s2 e s3 s4 : String),
      env.gen_en 0 = Except.ok s1 → env.gen_id 0 = Except.ok s2 →
      env.patch 0 s1 s2 = Except.error e →
      env.gen_en 1 = Except.ok s3 → env.gen_id 1 = Except.ok s4 →
      env.patch 1 s3 s4 = Except.ok () →
      (process_ayah env ayah now progress).2.2 =
        [Call.genEN 0, Call.rateSleep MIN_DELAY, Call.genID 0,
         Call.patchReq ayah.id 0 (update_supabase_body s1 s2),
         Call.backoffSleep 2,
         Call.genEN 1, Call.rateSleep MIN_DELAY, Call.genID 1,
         Call.patchReq ayah.id 1 (update_supabase_body s3 s4),
         Call.saveCkpt (succ_progress ayah progress now)]) := by
  refine ⟨rfl, rfl, rfl, ?_, ?_, ?_⟩
  · intro env ayah now progress
    have h := process_ayah_loop_genEN_le env ayah now (List.range MAX_RETRIES) progress
    unfold process_ayah
    simpa [List.length_range] using h
  · intro env ayah now progress emsg h
    rw [process_ayah_allFail env ayah now progress emsg h]
  · intro env ayah now progress s1 s2 e s3 s4 h1 h2 h3 h4 h5 h6
    have u0 : attempt_unit env ayah 0 =
        ([Call.genEN 0, Call.rateSleep MIN_DELAY, Call.genID 0,
          Call.patchReq ayah.id 0 (update_supabase_body s1 s2)],
         Except.error e) := by
      simp [attempt_unit, h1, h2, h3]
    have u1 : attempt_unit env ayah 1 =
        ([Call.genEN 1, Call.rateSleep MIN_DELAY, Call.genID 1,
          Call.patchReq ayah.id 1 (update_supabase_body s3 s4)],
         Except.ok (s3, s4)) := by
      simp [attempt_unit, h4, h5, h6]
    unfold process_ayah
    rw [range_max_retries]
    unfold process_ayah_loop
    rw [show (attempt_unit env ayah 0).2 = Except.error e from by rw [u0]]
    simp only [show ((0 : Nat) < MAX_RETRIES - 1) = True from by decide, if_true]
    unfold process_ayah_loop
    rw [show (attempt_unit env ayah 1).2 = Except.ok (s3, s4) from by rw [u1]]
    rw [show (attempt_unit env ayah 0).1 =
      [Call.genEN 0, Call.rateSleep MIN_DELAY, Call.genID 0,
       Call.patchReq ayah.id 0 (update_supabase_body s1 s2)] from by rw [u0]]
    rw [show (attempt_unit env ayah 1).1 =
      [Call.genEN 1, Call.rateSleep MIN_DELAY, Call.genID 1,
       Call.patchReq ayah.id 1 (update_supabase_body s3 s4)] from by rw [u1]]
    simp [MIN_DELAY, BACKOFF_MULTIPLIER]

/-- C3 witness: the retry shape on concrete oracles — an always-failing
record shows the 2 s and 4 s backoffs and exactly three attempts; a record
whose first persist fails re-runs the whole unit on attempt 2. -/
theorem claim_C3_witness :
    List.countP isGenEN (process_ayah envFail aW "t" pW).2.2 ≤ MAX_RETRIES ∧
    (process_ayah envFail aW "t" pW).2.2 =
      [Call.genEN 0, Call.backoffSleep 2, Call.genEN 1, Call.backoffSleep 4,
       Call.genEN 2, Call.saveCkpt (fail_progress aW "boom" pW "t")] ∧
    (process_ayah envPF aW "t" pW).2.2 =
      [Call.genEN 0, Call.rateSleep MIN_DELAY, Call.genID 0,
       Call.patchReq aW.id 0 (update_supabase_body "E" "I"),
       Call.backoffSleep 2,
       Call.genEN 1, Call.rateSleep MIN_DELAY, Call.genID 1,
       Call.patchReq aW.id 1 (update_supabase_body "E" "I"),
       Call.saveCkpt (succ_progress aW pW "t")] := by
  refine ⟨claim_C3.2.2.2.1 envFail aW "t" pW, ?_, ?_⟩
  · have h := claim_C3.2.2.2.2.1 envFail aW "t" pW (fun _ => "boom") (fun k _ => rfl)
    rw [h]
    rfl
  · exact claim_C3.2.2.2.2.2 envPF aW "t" pW "E" "I" "HTTP 500" "E" "I"
      rfl rfl rfl rfl rfl rfl

/-- C4: If the destination-store null-summary query succeeds with id set S,
the work-set is exactly the source records whose id is in S, independent of
the checkpoint; if and only if the query raises is the work-set instead the
source records with id above the checkpoint's `last_completed_id`; and the
run's loop processes exactly the work-set, in order. -/
theorem claim_C4 (progress : Progress) (ayat_list : List Ayah) :
    (∀ S : List Nat,
      select_remaining (get_ayat_without_summaries (Except.ok S)) progress ayat_list =
        ayat_list.filter (fun a => S.contains a.id)) ∧
    (∀ e : String,
      select_remaining (get_ayat_without_summaries (Except.error e)) progress ayat_list =
        ayat_list.filter (fun a => decide (progress.last_completed_id < a.id))) ∧
    (∀ (S : List Nat) (progress2 : Progress),
      select_remaining (get_ayat_without_summaries (Except.ok S)) progress ayat_list =
        select_remaining (get_ayat_without_summaries (Except.ok S)) progress2 ayat_list) ∧
    (∀ (env : Ayah → GenEnv) (now : String) (l : List Ayah),
      (run_loop env now l progress).2.1.map Prod.fst = l.map Ayah.id) :=
  ⟨fun _ => rfl, fun _ => rfl, fun _ _ => rfl,
   fun env now l => run_loop_ids env now l progress⟩

/-- C5: The Seeder partitions the prepared records into consecutive batches:
their concatenation in upload order is the original record list, every batch
but the last has exactly 100 records, and every batch is nonempty with at
most 100 records. -/
theorem claim_C5 (records : List SeedRec) :
    (batches records).flatten = records ∧
    (∀ i, i + 1 < (batches records).length →
      ((batches records).getD i []).length = 100) ∧
    (∀ b ∈ batches records, b.length ≤ 100 ∧ b ≠ []) := by
  refine ⟨?_, ?_, ?_⟩
  · unfold batches
    exact join_slices 100 (num_batches records.length 100) records
      (by unfold num_batches; omega)
  · intro i hi
    unfold batches at hi ⊢
    rw [List.length_map, List.length_range] at hi
    rw [List.getD_eq_getElem?_getD, List.getElem?_map,
        List.getElem?_range (by omega : i < num_batches records.length 100)]
    simp only [Option.map_some', Option.getD_some, List.length_take,
               List.length_drop]
    unfold num_batches at hi
    omega
  · intro b hb
    unfold batches at hb
    rcases List.mem_map.mp hb with ⟨i, hir, rfl⟩
    have hin : i < num_batches records.length 100 := List.mem_range.mp hir
    unfold num_batches at hin
    constructor
    · simp only [List.length_take, List.length_drop]
      omega
    · apply List.ne_nil_of_length_pos
      simp only [List.length_take, List.length_drop]
      omega

/-- C5 witness: with 101 identical records the first batch has exactly 100
records and the final one-record batch is nonempty and within bound. -/
theorem claim_C5_witness :
    ((batches (List.replicate 101 r0)).getD 0 []).length = 100 ∧
    ([r0].length ≤ 100 ∧ [r0] ≠ []) :=
  ⟨(claim_C5 (List.replicate 101 r0)).2.1 0 (by decide),
   (claim_C5 (List.replicate 101 r0)).2.2 [r0] (by decide)⟩

/-- C6: When a batch upsert answers HTTP 409, the Seeder re-submits every
record of that batch individually (in batch order), and per-record HTTP
errors during those submissions are swallowed — nothing propagates and no
failure is recorded. -/
theorem claim_C6 (env : SeedEnv) (batch : List SeedRec) (body : String)
    (h409 : env.post batch = PostOutcome.httpError 409 body)
    (hsingles : ∀ r ∈ batch, ∀ m, env.post [r] ≠ PostOutcome.exn m) :
    handle_batch env batch =
      (SeedReq.batchPost batch :: batch.map SeedReq.singlePost, none) := by
  simp [handle_batch, h409, singles_run_no_exn env batch hsingles]

/-- C6 witness: a store answering 409 everywhere makes a two-record batch
fall back to two individual POSTs with the conflicts ignored. -/
theorem claim_C6_witness :
    handle_batch env409 [r0, r1] =
      (SeedReq.batchPost [r0, r1] :: [r0, r1].map SeedReq.singlePost, none) :=
  claim_C6 env409 [r0, r1] "duplicate key" rfl
    (fun _ _ _ h => PostOutcome.noConfusion h)

/-- C7 counterexample: with 101 records (two batches) and a store that
answers 409 to the full batch but raises a non-HTTP transport exception on
the one-record fallback POSTs, the exception escapes `upload_to_supabase`
and the second batch is never attempted — contradicting the claim that no
error arising during a batch's per-record fallback halts the remaining
batches. -/
theorem claim_C7_counterexample :
    batches recsC = [List.replicate 100 r0, [r0]] ∧
    (upload_to_supabase envC recsC).2 = some "connection reset by peer" ∧
    SeedReq.batchPost [r0] ∉ (upload_to_supabase envC recsC).1 :=
  ⟨by decide, by decide, by decide⟩

/-- C7 (amended): every batch whose upsert fails with a non-conflict
transport or server error — or with any error handled inside the batch
handler — is reported without halting the loop, and every batch is
attempted, provided no non-HTTP exception is raised during a per-record
fallback POST (such an exception propagates and aborts the run). -/
theorem claim_C7 (env : SeedEnv) (records : List SeedRec)
    (h : ∀ b ∈ batches records, ∀ r ∈ b, ∀ m, env.post [r] ≠ PostOutcome.exn m) :
    (upload_to_supabase env records).2 = none ∧
    ∀ b ∈ batches records, SeedReq.batchPost b ∈ (upload_to_supabase env records).1 :=
  upload_run_no_exn env (batches records) h

/-- C7 witness: with an accepting store a one-batch upload terminates
normally and the batch is POSTed. -/
theorem claim_C7_witness :
    (upload_to_supabase envOkSeed [r0]).2 = none ∧
    SeedReq.batchPost [r0] ∈ (upload_to_supabase envOkSeed [r0]).1 := by
  have h := claim_C7 envOkSeed [r0] (fun _ _ _ _ m hm => PostOutcome.noConfusion hm)
  exact ⟨h.1, h.2 [r0] (by decide)⟩

/-- C8 counterexample: with all environment variables present but the local
SQLite database file missing, the Summary Generator still issues the
pending-ids store query — one remote request — before crashing on the
database read, contradicting the claim that no remote request is issued
when the local database file is missing. -/
theorem claim_C8_counterexample :
    (generator_main cAll (Except.ok []) none envOkA "t" none).1 =
      [Call.storeQuery] ∧
    Call.storeQuery ∈ (generator_main cAll (Except.ok []) none envOkA "t" none).1 ∧
    (generator_main cAll (Except.ok []) none envOkA "t" none).2 =
      Except.error "no such table: ayat" :=
  ⟨rfl, by decide, rfl⟩

/-- C8 (amended): a missing environment variable makes either component exit
before any request; a missing SQLite file makes the Seeder exit before any
request, while the Summary Generator issues exactly the one pending-ids
store query — and no completion call or PATCH — before failing on the
database read. -/
theorem claim_C8 :
    (∀ (c : Config) (env : SeedEnv) (db : Option (List SeedRow)),
      seeder_env_ok c = false →
      seeder_main c env db =
        ([], Except.error
          "ERROR: SUPABASE_URL and SUPABASE_SERVICE_ROLE must be set in .env")) ∧
    (∀ (c : Config) (env : SeedEnv),
      seeder_env_ok c = true →
      seeder_main c env none =
        ([], Except.error "ERROR: SQLite database not found")) ∧
    (∀ (c : Config) (q : Except String (List Nat)) (db : Option (List Ayah))
       (env : Ayah → GenEnv) (now : String) (file : Option Progress),
      generator_env_ok c = false →
      generator_main c q db env now file =
        ([], Except.error "ERROR: Required environment variables not set")) ∧
    (∀ (c : Config) (q : Except String (List Nat)) (env : Ayah → GenEnv)
       (now : String) (file : Option Progress),
      generator_env_ok c = true →
      generator_main c q none env now file =
        ([Call.storeQuery], Except.error "no such table: ayat")) := by
  refine ⟨?_, ?_, ?_, ?_⟩
  · intro c env db h
    simp [seeder_main, h]
  · intro c env h
    simp [seeder_main, h]
  · intro c q db env now file h
    simp [generator_main, h]
  · intro c q env now file h
    simp [generator_main, h]

/-- C8 witness: a configuration without the service-role credential stops
the Seeder with no request; a full configuration with a missing database
stops the generator after exactly the store query. -/
theorem claim_C8_witness :
    seeder_main cNoRole envOkSeed none =
      ([], Except.error
        "ERROR: SUPABASE_URL and SUPABASE_SERVICE_ROLE must be set in .env") ∧
    generator_main cAll (Except.ok []) none envOkA "t" none =
      ([Call.storeQuery], Except.error "no such table: ayat") :=
  ⟨claim_C8.1 cNoRole envOkSeed none rfl,
   claim_C8.2.2.2 cAll (Except.ok []) envOkA "t" none rfl⟩

/-- C9: When a record exhausts its retries, the failure path leaves the
checkpoint's `last_completed_id`, `total_generated` and `started_at`
untouched; only the errors list gains the one new entry and `updated_at` is
restamped. -/
theorem claim_C9 (env : GenEnv) (ayah : Ayah) (progress : Progress) (now : String)
    (emsg : Nat → String)
    (hfail : ∀ k, k < MAX_RETRIES →
      (attempt_unit env ayah k).2 = Except.error (emsg k)) :
    (process_ayah env ayah now progress).2.1.last_completed_id =
      progress.last_completed_id ∧
    (process_ayah env ayah now progress).2.1.total_generated =
      progress.total_generated ∧
    (process_ayah env ayah now progress).2.1.started_at = progress.started_at ∧
    (process_ayah env ayah now progress).2.1.errors =
      progress.errors ++
        [{ ayah_id := ayah.id, surah_ayah := surah_label ayah,
           error := emsg 2, timestamp := now }] ∧
    (process_ayah env ayah now progress).2.1.updated_at = some now := by
  rw [process_ayah_allFail env ayah now progress emsg hfail]
  simp [fail_progress, save_progress]

/-- C9 witness: the frame facts on a concrete always-failing record. -/
theorem claim_C9_witness :
    (process_ayah envFail aW "t" pW).2.1.last_completed_id =
      pW.last_completed_id ∧
    (process_ayah envFail aW "t" pW).2.1.total_generated = pW.total_generated ∧
    (process_ayah envFail aW "t" pW).2.1.updated_at = some "t" := by
  have h := claim_C9 envFail aW pW "t" (fun _ => "boom") (fun _ _ => rfl)
  exact ⟨h.1, h.2.1, h.2.2.2.2⟩

/-- C10 counterexample: the source list [id 3, id 4] is ascending and the
store-mode work-set filter preserves that order, yet starting from a
checkpoint whose `last_completed_id` is 10 (larger than the pending ids the
store reports), a failure on id 3 re-saves the mark 10 and the following
success on id 4 saves 4 — so the saved `last_completed_id` sequence
[10, 4] decreases across the run's checkpoint saves, refuting the claim. -/
theorem claim_C10_counterexample :
    List.Pairwise (fun x y => x.id ≤ y.id) [a3, a4] ∧
    select_remaining (some [3, 4]) p10 [a3, a4] = [a3, a4] ∧
    (saves (run_loop envMix "t"
        (select_remaining (some [3, 4]) p10 [a3, a4]) p10).2.2).map
      Progress.last_completed_id = [10, 4] ∧
    ¬ List.Chain' (fun x y => x ≤ y) [10, 4] :=
  ⟨by decide, by decide, by decide,
   fun h => absurd (List.chain'_cons.mp h).1 (by omega)⟩

/-- C10 (amended): with the source list sorted by ascending id, both
work-set filters preserve that order and the loop processes the work-set in
that order; and provided the checkpoint's initial `last_completed_id` does
not exceed any processed id — which always holds in checkpoint-fallback
mode — the `last_completed_id` values of the run's successive checkpoint
saves are non-decreasing. -/
theorem claim_C10 (env : Ayah → GenEnv) (now : String) (progress : Progress)
    (missing_ids : Option (List Nat)) (ayat_list : List Ayah)
    (hsorted : List.Pairwise (fun x y => x.id ≤ y.id) ayat_list) :
    List.Pairwise (fun x y => x.id ≤ y.id)
      (select_remaining missing_ids progress ayat_list) ∧
    (run_loop env now (select_remaining missing_ids progress ayat_list)
        progress).2.1.map Prod.fst =
      (select_remaining missing_ids progress ayat_list).map Ayah.id ∧
    ((∀ x ∈ select_remaining missing_ids progress ayat_list,
        progress.last_completed_id ≤ x.id) →
      List.Chain' (· ≤ ·)
        ((saves (run_loop env now
            (select_remaining missing_ids progress ayat_list)
              progress).2.2).map Progress.last_completed_id)) ∧
    (missing_ids = none →
      ∀ x ∈ select_remaining missing_ids progress ayat_list,
        progress.last_completed_id ≤ x.id) := by
  have hsel : List.Pairwise (fun x y => x.id ≤ y.id)
      (select_remaining missing_ids progress ayat_list) := by
    cases missing_ids with
    | some ids => exact List.Pairwise.sublist (List.filter_sublist _) hsorted
    | none => exact List.Pairwise.sublist (List.filter_sublist _) hsorted
  refine ⟨hsel, run_loop_ids env now _ progress, ?_, ?_⟩
  · intro hle
    exact (run_loop_chain env now _ progress hsel hle).tail
  · intro hnone x hx
    subst hnone
    simp only [select_remaining] at hx
    exact Nat.le_of_lt (of_decide_eq_true (List.mem_filter.mp hx).2)

/-- C10 witness: a fully successful fallback-mode run over a sorted source
list has non-decreasing checkpoint marks. -/
theorem claim_C10_witness :
    List.Chain' (· ≤ ·)
      ((saves (run_loop envOkA "t"
          (select_remaining none pW [a3, a4]) pW).2.2).map
        Progress.last_completed_id) := by
  have h := claim_C10 envOkA "t" pW none [a3, a4] (by decide)
  exact h.2.2.1 (h.2.2.2 rfl)
